import Mathlib

/-!
Shallow embedding of the checklist bot (src/bot.py) for verification.

Conventions of the embedding:
* Python dicts that act as JSON objects are modelled as association lists
  (insertion-ordered, as Python dicts are), with helpers getKey / setKey /
  eraseKey mirroring d.get(k), d[k] = v and del d[k] for dicts whose keys
  are unique (which is forced by Python dict semantics).
* Effects are made explicit: uuid generation and wall-clock reads are an
  Env argument, file-system state is a DiskState value threaded through
  load_data / save_data, and an exception that would propagate to the
  caller is an Option value in the result.
* Timestamps are modelled as Nat; the datetime comparison now > expiry on
  ISO strings is order-isomorphic to the Nat comparison used here.
* Per-user store rows are typed (UserData below); an Option field models
  presence or absence of the corresponding JSON key, which is exactly what
  the migration code in ensure_user_exists branches on.
-/

namespace Bot

/-- Supplier of the effects that Task construction and migration use:
uuid4 (one fresh id per index) and datetime.now().isoformat(). -/
structure Env where
  freshId : Nat → String
  nowIso : String

/-- Task model (class Task in src/bot.py): id, text, created_at, completed.
The constructor always sets completed to False. -/
structure Task where
  id : String
  text : String
  created_at : String
  completed : Bool
deriving DecidableEq, Repr

/-- Task.__init__(text, task_id, created_at): completed is always False. -/
def Task.create (text : String) (task_id : String) (created_at : String) : Task :=
  ⟨task_id, text, created_at, false⟩

/-- Checklist model (class Checklist in src/bot.py): a name and an
insertion-ordered list of tasks. -/
structure Checklist where
  name : String
  tasks : List Task
deriving DecidableEq, Repr

/-- Checklist.add_task(text): constructs Task(text) (fresh id, completed
False), appends it, and returns it. There is no validation of text here. -/
def Checklist.add_task (c : Checklist) (text : String)
    (task_id : String) (created_at : String) : Checklist × Task :=
  let t := Task.create text task_id created_at
  (⟨c.name, c.tasks ++ [t]⟩, t)

/-- Checklist.get_task_by_id: first task with the given id, if any. -/
def Checklist.get_task_by_id (c : Checklist) (task_id : String) : Option Task :=
  c.tasks.find? (fun t => t.id == task_id)

/-- Helper for toggle_task: flip completed on the first task with the given
id, returning none when no task has it (mirrors get_task_by_id + in-place
mutation of that one task). -/
def toggleFirst : List Task → String → Option (List Task)
  | [], _ => none
  | t :: ts, task_id =>
    if t.id = task_id then some (⟨t.id, t.text, t.created_at, !t.completed⟩ :: ts)
    else (toggleFirst ts task_id).map (fun ts2 => t :: ts2)

/-- Checklist.toggle_task(task_id): flips completed on the matching task and
returns True; returns False and changes nothing when the id is absent. -/
def Checklist.toggle_task (c : Checklist) (task_id : String) : Bool × Checklist :=
  match toggleFirst c.tasks task_id with
  | some ts => (true, ⟨c.name, ts⟩)
  | none => (false, c)

/-- Helper for remove_task: drop the first task with the given id, none when
absent. -/
def removeFirst : List Task → String → Option (List Task)
  | [], _ => none
  | t :: ts, task_id =>
    if t.id = task_id then some ts
    else (removeFirst ts task_id).map (fun ts2 => t :: ts2)

/-- Checklist.remove_task(task_id): removes the matching task and returns
True; returns False and changes nothing when the id is absent. -/
def Checklist.remove_task (c : Checklist) (task_id : String) : Bool × Checklist :=
  match removeFirst c.tasks task_id with
  | some ts => (true, ⟨c.name, ts⟩)
  | none => (false, c)

/-- Checklist.get_progress(): (number of completed tasks, number of tasks). -/
def Checklist.get_progress (c : Checklist) : Nat × Nat :=
  (c.tasks.countP (fun t => t.completed), c.tasks.length)

/-- Checklist.reset_all(): sets completed to False on every task. -/
def Checklist.reset_all (c : Checklist) : Checklist :=
  ⟨c.name, c.tasks.map (fun t => ⟨t.id, t.text, t.created_at, false⟩)⟩

/-! JSON documents, as produced by json.dump and consumed by json.load.
The store file holds one such document. Numbers do not occur in the
current persisted format, so the model omits them. -/

/-- JSON value: null, boolean, string, array or object (ordered fields). -/
inductive Json where
  | null : Json
  | bool (b : Bool) : Json
  | str (s : String) : Json
  | arr (elems : List Json) : Json
  | obj (fields : List (String × Json)) : Json

/-- Dictionary read d.get(k): the value at the first matching key. -/
def getKey {α : Type} : List (String × α) → String → Option α
  | [], _ => none
  | (k0, v0) :: rest, k => if k0 = k then some v0 else getKey rest k

/-- Dictionary write d[k] = v: replace the value at an existing key in
place, or append a new entry (Python dict assignment on unique keys). -/
def setKey {α : Type} : List (String × α) → String → α → List (String × α)
  | [], k, v => [(k, v)]
  | (k0, v0) :: rest, k, v =>
    if k0 = k then (k, v) :: rest else (k0, v0) :: setKey rest k v

/-- Dictionary delete del d[k]: drop the entry with the given key. -/
def eraseKey {α : Type} : List (String × α) → String → List (String × α)
  | [], _ => []
  | (k0, v0) :: rest, k => if k0 = k then rest else (k0, v0) :: eraseKey rest k

/-- Keys of a dictionary, in order. -/
def keys {α : Type} (kvs : List (String × α)) : List String :=
  kvs.map (fun p => p.1)

/-- Task.to_dict(). -/
def Task.to_dict (t : Task) : Json :=
  .obj [("id", .str t.id), ("text", .str t.text),
        ("created_at", .str t.created_at), ("completed", .bool t.completed)]

/-- Task.from_dict(data): reads text, id and created_at (a missing key or a
value of the wrong shape is a KeyError in Python, modelled as none) and
completed with dict.get default False. -/
def Task.from_dict (j : Json) : Option Task :=
  match j with
  | .obj kvs =>
    match getKey kvs "text", getKey kvs "id", getKey kvs "created_at" with
    | some (.str text), some (.str id), some (.str created_at) =>
      match getKey kvs "completed" with
      | none => some ⟨id, text, created_at, false⟩
      | some (.bool b) => some ⟨id, text, created_at, b⟩
      | some _ => none
    | _, _, _ => none
  | _ => none

/-- Checklist.to_dict(). -/
def Checklist.to_dict (c : Checklist) : Json :=
  .obj [("name", .str c.name), ("tasks", .arr (c.tasks.map Task.to_dict))]

/-- Helper: the list comprehension over task dicts in Checklist.from_dict;
fails as soon as one element fails. -/
def tasksFromDicts : List Json → Option (List Task)
  | [] => some []
  | j :: js =>
    match Task.from_dict j, tasksFromDicts js with
    | some t, some ts => some (t :: ts)
    | _, _ => none

/-- Checklist.from_dict(data): requires the name key and reads tasks with
dict.get default empty list. -/
def Checklist.from_dict (j : Json) : Option Checklist :=
  match j with
  | .obj kvs =>
    match getKey kvs "name" with
    | some (.str name) =>
      match getKey kvs "tasks" with
      | none => some ⟨name, []⟩
      | some (.arr xs) => (tasksFromDicts xs).map (fun ts => ⟨name, ts⟩)
      | some _ => none
    | _ => none
  | _ => none

/-! File system model for the persistence layer. The backing file either
does not exist, holds a parseable JSON document, or is corrupt; json.dump
followed by json.load of a well-formed document is treated as exact
(a guarantee of the external json library, not of this code base). -/

/-- Content of the single backing file. -/
inductive FileContent where
  | parseable (doc : Json) : FileContent
  | corrupt : FileContent

/-- State of the directory holding the store: the main file, whether the
temporary file of save_data exists, and timestamped backups made by the
corruption recovery of load_data. -/
structure DiskState where
  file : Option FileContent
  tmpExists : Bool
  backups : List FileContent

/-- load_data(): returns the parsed document; on FileNotFoundError returns
an empty table; on JSONDecodeError renames the corrupt file to a backup
name and returns an empty table. -/
def load_data (d : DiskState) : Json × DiskState :=
  match d.file with
  | none => (.obj [], d)
  | some (.parseable doc) => (doc, d)
  | some .corrupt => (.obj [], ⟨none, d.tmpExists, .corrupt :: d.backups⟩)

/-- save_data(data): writes the document to a temporary file and renames it
over the main file. writeOk is whether the underlying write succeeds. On
failure the exception is caught and logged, the temporary file is removed
if present, the main file is untouched, and the function returns normally.
The second component is the exception propagated to the caller, if any. -/
def save_data (doc : Json) (writeOk : Bool) (d : DiskState) :
    DiskState × Option String :=
  if writeOk then (⟨some (.parseable doc), false, d.backups⟩, none)
  else (⟨d.file, false, d.backups⟩, none)

/-! Per-user state. Each Option field models presence of the JSON key of
the same name in the Python per-user dict; premium_expires distinguishes
an absent key (outer none) from a present key holding null (some none). -/

/-- Settings dict: daily_reset_time, timezone, notifications_enabled. -/
structure Settings where
  daily_reset_time : String
  timezone : String
  notifications_enabled : Bool
deriving DecidableEq, Repr

/-- Default settings written by ensure_user_exists. -/
def defaultSettings : Settings := ⟨"08:00", "UTC", true⟩

/-- One row of the store: the per-user dict. legacy_tasks and legacy_done
are the pre-migration keys named tasks and done in the file. -/
structure UserData where
  is_premium : Option Bool
  premium_expires : Option (Option Nat)
  premium_plan : Option String
  checklists : Option (List (String × Checklist))
  settings : Option Settings
  legacy_tasks : Option (List String)
  legacy_done : Option (List Nat)
deriving DecidableEq, Repr

/-- The fresh per-user dict that ensure_user_exists writes for an unknown
user id: not premium, null expiry, one empty Daily checklist, default
settings, and no premium_plan key. -/
def defaultUser : UserData :=
  ⟨some false, some none, none, some [("Daily", ⟨"Daily", []⟩)],
   some defaultSettings, none, none⟩

/-- Conversion of the legacy shape (a list of task strings plus a list of
completed indices) into Task values: enumerate, give each a fresh id and
the current timestamp, and mark the task completed when its index is in
the done list. -/
def legacyTasks (env : Env) (texts : List String) (done : List Nat) : List Task :=
  texts.enum.map (fun p => Task.mk (env.freshId p.1) p.2 env.nowIso (done.contains p.1))

/-- Migration branch of ensure_user_exists for an already-present user:
backfill is_premium, premium_expires and settings when their keys are
absent; when the checklists key is absent, rebuild a Daily checklist from
the legacy tasks and done keys and delete those keys. -/
def migrate (env : Env) (u0 : UserData) : UserData :=
  let u1 := if u0.is_premium.isNone then
    ⟨some false, u0.premium_expires, u0.premium_plan, u0.checklists,
     u0.settings, u0.legacy_tasks, u0.legacy_done⟩ else u0
  let u2 := if u1.premium_expires.isNone then
    ⟨u1.is_premium, some none, u1.premium_plan, u1.checklists,
     u1.settings, u1.legacy_tasks, u1.legacy_done⟩ else u1
  let u3 := if u2.settings.isNone then
    ⟨u2.is_premium, u2.premium_expires, u2.premium_plan, u2.checklists,
     some defaultSettings, u2.legacy_tasks, u2.legacy_done⟩ else u2
  if u3.checklists.isNone then
    ⟨u3.is_premium, u3.premium_expires, u3.premium_plan,
     some [("Daily", ⟨"Daily",
       legacyTasks env (u3.legacy_tasks.getD []) (u3.legacy_done.getD [])⟩)],
     u3.settings, none, none⟩
  else u3

/-- ensure_user_exists(chat_id), restricted to the row of the one user in
question (the function loads the whole table, creates or migrates this
row, saves the table and returns the row; the returned value is what is
persisted). -/
def ensure_user_exists (env : Env) (existing : Option UserData) : UserData :=
  match existing with
  | none => defaultUser
  | some u => migrate env u

/-- is_user_premium(chat_id) at time now: after ensure_user_exists, a user
whose is_premium is falsy is not premium; otherwise, when premium_expires
holds a timestamp strictly in the past, the function persists is_premium
False and premium_expires null (premium_plan is not touched) and returns
False; otherwise the user is premium. The returned UserData is the state
as persisted. -/
def is_user_premium (env : Env) (now : Nat) (existing : Option UserData) :
    Bool × UserData :=
  let u := ensure_user_exists env existing
  if u.is_premium = some true then
    match u.premium_expires with
    | some (some e) =>
      if e < now then
        (false,
         ⟨some false, some none, u.premium_plan, u.checklists,
          u.settings, u.legacy_tasks, u.legacy_done⟩)
      else (true, u)
    | _ => (true, u)
  else (false, u)

/-- Model of the join of a list of words with a single space between
them, as the str.join call in the command handlers produces. -/
def joinSpace : List String → String
  | [] => ""
  | [s] => s
  | s :: s2 :: rest => s ++ " " ++ joinSpace (s2 :: rest)

/-- The routing step of the add command (src/bot.py lines 443 to 459):
a premium caller with at least two arguments adds to the checklist named
by the first argument exactly when a checklist of that name exists, the
task text being the remaining arguments joined; in every other case the
target is Daily and the text is all arguments joined. -/
def route_add (premium : Bool) (names : List String) (args : List String) :
    String × String :=
  if premium then
    match args with
    | a0 :: a1 :: rest =>
      if a0 ∈ names then (a0, joinSpace (a1 :: rest))
      else ("Daily", joinSpace (a0 :: a1 :: rest))
    | _ => ("Daily", joinSpace args)
  else ("Daily", joinSpace args)

/-- The add command handler on the row of the calling user: ensure the
user, reject an empty argument list, route to a target checklist, and
append the new task when the target exists. -/
def add_task (env : Env) (premium : Bool) (args : List String) (u0 : UserData) :
    UserData :=
  let u := ensure_user_exists env (some u0)
  if args.isEmpty then u
  else
    match u.checklists with
    | none => u
    | some kvs =>
      let r := route_add premium (keys kvs) args
      match getKey kvs r.1 with
      | none => u
      | some c =>
        ⟨u.is_premium, u.premium_expires, u.premium_plan,
         some (setKey kvs r.1 (c.add_task r.2 (env.freshId 0) env.nowIso).1),
         u.settings, u.legacy_tasks, u.legacy_done⟩

/-- The new_checklist command handler on the row of the calling user:
premium only; rejects a missing name, a name longer than 50 characters,
a duplicate name, and an 11th checklist; otherwise inserts an empty
checklist under the given name. -/
def new_checklist (env : Env) (premium : Bool) (nameArgs : List String)
    (u0 : UserData) : UserData :=
  let u := ensure_user_exists env (some u0)
  if premium = false then u
  else if nameArgs.isEmpty then u
  else
    let name := joinSpace nameArgs
    match u.checklists with
    | none => u
    | some kvs =>
      if name.length > 50 then u
      else if name ∈ keys kvs then u
      else if 10 ≤ kvs.length then u
      else
        ⟨u.is_premium, u.premium_expires, u.premium_plan,
         some (setKey kvs name ⟨name, []⟩),
         u.settings, u.legacy_tasks, u.legacy_done⟩

/-- The delete_confirmed branch of button_handler: premium only; deletes
the named checklist only when it exists and is not Daily. -/
def button_delete_confirmed (premium : Bool) (name : String) (u : UserData) :
    UserData :=
  if premium = false then u
  else
    match u.checklists with
    | none => u
    | some kvs =>
      if name ∈ keys kvs ∧ name ≠ "Daily" then
        ⟨u.is_premium, u.premium_expires, u.premium_plan,
         some (eraseKey kvs name),
         u.settings, u.legacy_tasks, u.legacy_done⟩
      else u

/-- The toggle branch of button_handler: when the named checklist exists
and holds the task id, flip that task and store the checklist back. -/
def button_toggle (name : String) (task_id : String) (u : UserData) : UserData :=
  match u.checklists with
  | none => u
  | some kvs =>
    match getKey kvs name with
    | none => u
    | some c =>
      let r := c.toggle_task task_id
      if r.1 then
        ⟨u.is_premium, u.premium_expires, u.premium_plan,
         some (setKey kvs name r.2),
         u.settings, u.legacy_tasks, u.legacy_done⟩
      else u

/-- The delete_task branch of button_handler: premium only; when the named
checklist exists and holds the task id, remove that task and store the
checklist back. -/
def button_delete_task (premium : Bool) (name : String) (task_id : String)
    (u : UserData) : UserData :=
  if premium = false then u
  else
    match u.checklists with
    | none => u
    | some kvs =>
      match getKey kvs name with
      | none => u
      | some c =>
        let r := c.remove_task task_id
        if r.1 then
          ⟨u.is_premium, u.premium_expires, u.premium_plan,
           some (setKey kvs name r.2),
           u.settings, u.legacy_tasks, u.legacy_done⟩
        else u

/-- The toggle_notifications branch of button_handler: premium only; flip
notifications_enabled (dict.get default True materialised with the other
setting defaults when the settings key is absent). -/
def button_toggle_notifications (premium : Bool) (u : UserData) : UserData :=
  if premium = false then u
  else
    let s := u.settings.getD defaultSettings
    ⟨u.is_premium, u.premium_expires, u.premium_plan, u.checklists,
     some ⟨s.daily_reset_time, s.timezone, !s.notifications_enabled⟩,
     u.legacy_tasks, u.legacy_done⟩

/-- successful_payment_callback (the later definition in the file, which
is the one bound): sets is_premium True and premium_expires to now plus
the plan duration; checklists are untouched. -/
def successful_payment (nowTs : Nat) (durationDays : Nat) (u : UserData) :
    UserData :=
  ⟨some true, some (some (nowTs + durationDays)), u.premium_plan,
   u.checklists, u.settings, u.legacy_tasks, u.legacy_done⟩

/-- The per-user body of reset_tasks: reset every checklist of the user
(a user without a checklists key is iterated over an empty dict). -/
def resetUserChecklists (u : UserData) : UserData :=
  match u.checklists with
  | none => u
  | some kvs =>
    ⟨u.is_premium, u.premium_expires, u.premium_plan,
     some (kvs.map (fun p => (p.1, p.2.reset_all))),
     u.settings, u.legacy_tasks, u.legacy_done⟩

/-- Whether reset_tasks attempts a notification for the user:
user_data.get(settings, empty).get(notifications_enabled, True). -/
def notifEnabled (u : UserData) : Bool :=
  match u.settings with
  | some s => s.notifications_enabled
  | none => true

/-- The whole persisted table, keyed by stringified user id. -/
abbrev Store := List (String × UserData)

/-- Observable events of one reset_tasks run, in order: per-user reset,
per-user notification attempt (with its outcome; a failed attempt is
caught and logged), and the single whole-table save. -/
inductive REvent where
  | resetUser (id : String) : REvent
  | notifyAttempt (id : String) (ok : Bool) : REvent
  | persistAll : REvent
deriving DecidableEq, Repr

/-- The user loop of reset_tasks: for each user, reset all checklists in
the in-memory table, then, when notifications are enabled, attempt the
notification at once; a failure of the attempt is caught inside the loop
and the loop continues. -/
def resetLoop (notifyOk : String → Bool) : Store → Store × List REvent
  | [] => ([], [])
  | (id, u) :: rest =>
    let u2 := resetUserChecklists u
    let evs := REvent.resetUser id ::
      (if notifEnabled u then [REvent.notifyAttempt id (notifyOk id)] else [])
    let r := resetLoop notifyOk rest
    ((id, u2) :: r.1, evs ++ r.2)

/-- reset_tasks(): run the user loop over the loaded table, then save the
whole table once at the end. notifyOk gives the outcome of each outbound
notification. -/
def reset_tasks (store : Store) (notifyOk : String → Bool) :
    Store × List REvent :=
  let r := resetLoop notifyOk store
  (r.1, r.2 ++ [REvent.persistAll])

/-- The operations of the system that read or write a user row, as an
operation language over one row. -/
inductive UserOp where
  | ensureOp : UserOp
  | premiumCheck (now : Nat) : UserOp
  | addTaskCmd (premium : Bool) (args : List String) : UserOp
  | newChecklistCmd (premium : Bool) (nameArgs : List String) : UserOp
  | deleteConfirmedCb (premium : Bool) (name : String) : UserOp
  | toggleCb (name : String) (task_id : String) : UserOp
  | deleteTaskCb (premium : Bool) (name : String) (task_id : String) : UserOp
  | toggleNotificationsCb (premium : Bool) : UserOp
  | paymentOp (nowTs : Nat) (durationDays : Nat) : UserOp
  | dailyResetOp : UserOp

/-- The state transition each operation performs on a user row. -/
def applyOp (env : Env) : UserOp → UserData → UserData
  | .ensureOp, u => ensure_user_exists env (some u)
  | .premiumCheck now, u => (is_user_premium env now (some u)).2
  | .addTaskCmd premium args, u => add_task env premium args u
  | .newChecklistCmd premium nameArgs, u => new_checklist env premium nameArgs u
  | .deleteConfirmedCb premium name, u => button_delete_confirmed premium name u
  | .toggleCb name task_id, u => button_toggle name task_id u
  | .deleteTaskCb premium name task_id, u => button_delete_task premium name task_id u
  | .toggleNotificationsCb premium, u => button_toggle_notifications premium u
  | .paymentOp nowTs durationDays, u => successful_payment nowTs durationDays u
  | .dailyResetOp, u => resetUserChecklists u

/-- A user row owns a checklist named Daily. -/
abbrev hasDaily (u : UserData) : Prop :=
  "Daily" ∈ keys (u.checklists.getD [])

/-- Concrete effect environment used in witnesses. -/
def env0 : Env := ⟨fun n => "uuid-" ++ toString n, "2024-01-01T08:00:00"⟩

/-! Helper lemmas about the dictionary operations. -/

theorem mem_keys_setKey {α : Type} (kvs : List (String × α)) (k k2 : String)
    (v : α) (h : k2 ∈ keys kvs) : k2 ∈ keys (setKey kvs k v) := by
  induction kvs with
  | nil => cases h
  | cons p rest ih =>
    rcases p with ⟨k0, v0⟩
    by_cases hk : k0 = k
    · simp only [setKey, if_pos hk, keys, List.map_cons, List.mem_cons] at h ⊢
      rcases h with h | h
      · left; rw [h, hk]
      · right; exact h
    · simp only [setKey, if_neg hk, keys, List.map_cons, List.mem_cons] at h ⊢
      rcases h with h | h
      · left; exact h
      · right; exact ih h

theorem mem_keys_eraseKey {α : Type} (kvs : List (String × α)) (k k2 : String)
    (hne : k2 ≠ k) (h : k2 ∈ keys kvs) : k2 ∈ keys (eraseKey kvs k) := by
  induction kvs with
  | nil => cases h
  | cons p rest ih =>
    rcases p with ⟨k0, v0⟩
    by_cases hk : k0 = k
    · simp only [eraseKey, if_pos hk, keys, List.map_cons, List.mem_cons] at h ⊢
      rcases h with h | h
      · exact absurd (h.trans hk) hne
      · exact h
    · simp only [eraseKey, if_neg hk, keys, List.map_cons, List.mem_cons] at h ⊢
      rcases h with h | h
      · left; exact h
      · right; exact ih h

theorem keys_map_values {α β : Type} (kvs : List (String × α))
    (f : String × α → β) :
    keys (kvs.map (fun p => (p.1, f p))) = keys kvs := by
  induction kvs with
  | nil => rfl
  | cons p rest ih => simp [keys, List.map_map]

/-! Helper lemmas about migration and the premium check. -/

theorem migrate_self (env : Env) (u : UserData)
    (h1 : u.is_premium.isSome) (h2 : u.premium_expires.isSome)
    (h3 : u.settings.isSome) (h4 : u.checklists.isSome) :
    migrate env u = u := by
  obtain ⟨a, ha⟩ := Option.isSome_iff_exists.mp h1
  obtain ⟨b, hb⟩ := Option.isSome_iff_exists.mp h2
  obtain ⟨s, hs⟩ := Option.isSome_iff_exists.mp h3
  obtain ⟨k, hk⟩ := Option.isSome_iff_exists.mp h4
  simp [migrate, ha, hb, hs, hk]

theorem migrate_checklists (env : Env) (u : UserData)
    (kvs : List (String × Checklist)) (h : u.checklists = some kvs) :
    (migrate env u).checklists = some kvs := by
  obtain ⟨ip, pe, pp, cl, st, lt, ld⟩ := u
  replace h : cl = some kvs := h
  subst h
  cases ip <;> cases pe <;> cases st <;> simp [migrate]

theorem hasDaily_migrate (env : Env) (u : UserData) (h : hasDaily u) :
    hasDaily (migrate env u) := by
  rcases hc : u.checklists with _ | kvs
  · exact absurd h (by simp [hasDaily, hc, keys])
  · have hm := migrate_checklists env u kvs hc
    simp only [hasDaily, hm, Option.getD_some]
    simp only [hasDaily, hc, Option.getD_some] at h
    exact h

theorem hasDaily_migrate_none (env : Env) (u : UserData)
    (h : u.checklists = none) : hasDaily (migrate env u) := by
  obtain ⟨ip, pe, pp, cl, st, lt, ld⟩ := u
  replace h : cl = none := h
  subst h
  cases ip <;> cases pe <;> cases st <;> simp [migrate, hasDaily, keys]

theorem is_user_premium_checklists (env : Env) (now : Nat) (u : UserData) :
    ((is_user_premium env now (some u)).2).checklists =
      (migrate env u).checklists := by
  simp only [is_user_premium, ensure_user_exists]
  generalize migrate env u = m
  by_cases h1 : m.is_premium = some true
  · rw [if_pos h1]
    rcases hpe : m.premium_expires with _ | (_ | e)
    · rfl
    · rfl
    · dsimp only
      by_cases h2 : e < now
      · rw [if_pos h2]
      · rw [if_neg h2]
  · rw [if_neg h1]

/-! Theorems settling the claims. -/

/-- C9: ResetAll is idempotent, and after it the progress is zero completed
out of an unchanged total task count. -/
theorem c9_reset_all_idempotent_progress (c : Checklist) :
    c.reset_all.reset_all = c.reset_all ∧
    c.reset_all.get_progress = (0, c.tasks.length) := by
  constructor
  · simp [Checklist.reset_all, List.map_map]
  · simp [Checklist.reset_all, Checklist.get_progress, List.countP_map]

/-- Helper for C6: when no task carries the id, the first-match traversal
finds nothing. -/
theorem toggleFirst_eq_none (ts : List Task) (task_id : String)
    (h : ∀ t ∈ ts, t.id ≠ task_id) : toggleFirst ts task_id = none := by
  induction ts with
  | nil => rfl
  | cons t ts ih =>
    simp only [toggleFirst]
    rw [if_neg (h t (by simp)), ih (fun x hx => h x (by simp [hx]))]
    rfl

/-- C6: toggling a task id that is not in the checklist returns False,
raises nothing, and leaves the checklist unchanged. -/
theorem c6_toggle_missing_id_noop (c : Checklist) (task_id : String)
    (h : ∀ t ∈ c.tasks, t.id ≠ task_id) :
    c.toggle_task task_id = (false, c) := by
  simp [Checklist.toggle_task, toggleFirst_eq_none c.tasks task_id h]

/-- Witness for C6 at a concrete checklist and missing id. -/
theorem c6_toggle_missing_id_noop_witness :
    (∀ t ∈ (Checklist.mk "Daily" [⟨"a", "x", "t0", false⟩]).tasks, t.id ≠ "b") ∧
    (Checklist.mk "Daily" [⟨"a", "x", "t0", false⟩]).toggle_task "b" =
      (false, Checklist.mk "Daily" [⟨"a", "x", "t0", false⟩]) :=
  ⟨by decide, c6_toggle_missing_id_noop _ "b" (by decide)⟩

/-- C2 counterexample: on a failing write, save_data propagates no error to
the caller (the exception is swallowed after logging), refuting the claim
that the failure is reported to the caller as an IOError. -/
theorem c2_counterexample_error_swallowed :
    (save_data (Json.obj []) false ⟨none, false, []⟩).2 = none := rfl

/-- C2 amended: on a failing write, save_data leaves the main file
untouched, removes its temporary file, and returns normally with the
error only logged, not reported to the caller. -/
theorem c2_save_failure_cleanup (doc : Json) (d : DiskState) :
    (save_data doc false d).1.file = d.file ∧
    (save_data doc false d).1.tmpExists = false ∧
    (save_data doc false d).2 = none :=
  ⟨rfl, rfl, rfl⟩

/-- C4 counterexample: add_task does not reject blank text; adding the
empty string to an empty checklist appends a task holding it. -/
theorem c4_counterexample_blank_not_rejected :
    ((Checklist.mk "Daily" []).add_task "" "id0" "t0").1.tasks =
      [⟨"id0", "", "t0", false⟩] := rfl

/-- C4 amended: for any text, including blank, add_task appends exactly one
Task with the freshly generated id and completed False and returns it (the
id is unique in the checklist whenever the generated id is fresh); empty
input is rejected upstream by the add command handler, whose empty
argument list path changes nothing. -/
theorem c4_add_task_appends (c : Checklist) (text task_id created_at : String) :
    (c.add_task text task_id created_at).1 =
      ⟨c.name, c.tasks ++ [⟨task_id, text, created_at, false⟩]⟩ ∧
    (c.add_task text task_id created_at).2 = ⟨task_id, text, created_at, false⟩ ∧
    ((∀ t ∈ c.tasks, t.id ≠ task_id) →
      ((c.add_task text task_id created_at).1.tasks.filter
        (fun t => t.id == task_id)).length = 1) ∧
    (∀ env premium u, add_task env premium [] u = ensure_user_exists env (some u)) := by
  refine ⟨rfl, rfl, ?_, fun env premium u => rfl⟩
  intro h
  have hnil : c.tasks.filter (fun t => t.id == task_id) = [] := by
    rw [List.filter_eq_nil_iff]
    intro t ht
    simpa using h t ht
  simp [Checklist.add_task, Task.create, List.filter_append, hnil]

/-- Witness for C4 amended at a concrete checklist and fresh id. -/
theorem c4_add_task_appends_witness :
    (∀ t ∈ (Checklist.mk "Daily" []).tasks, t.id ≠ "id1") ∧
    (((Checklist.mk "Daily" []).add_task "milk" "id1" "t1").1.tasks.filter
      (fun t => t.id == "id1")).length = 1 :=
  ⟨by decide, (c4_add_task_appends ⟨"Daily", []⟩ "milk" "id1" "t1").2.2.1 (by decide)⟩

/-- Helper for C7: Task serialisation inverts. -/
theorem task_from_dict_to_dict (t : Task) : Task.from_dict t.to_dict = some t := by
  simp [Task.from_dict, Task.to_dict, getKey]

/-- Helper for C7: serialisation of a task list inverts. -/
theorem tasksFromDicts_map_to_dict (ts : List Task) :
    tasksFromDicts (ts.map Task.to_dict) = some ts := by
  induction ts with
  | nil => rfl
  | cons t ts ih => simp [tasksFromDicts, task_from_dict_to_dict, ih]

/-- C7: a successful save followed by a load returns exactly the saved
document (atomic rename, then parse), and the object layer serialisation
of a checklist inverts, so the reloaded state equals the original for any
well-formed state, including zero users, empty checklists and arbitrary
unicode text. -/
theorem c7_save_load_round_trip (doc : Json) (d : DiskState) (c : Checklist) :
    load_data (save_data doc true d).1 = (doc, (save_data doc true d).1) ∧
    Checklist.from_dict c.to_dict = some c := by
  refine ⟨rfl, ?_⟩
  simp [Checklist.from_dict, Checklist.to_dict, getKey, tasksFromDicts_map_to_dict]

/-- C8: migrating a user row that already has the entitlement fields, the
settings and the checklists container is a no-op. -/
theorem c8_migration_idempotent (env : Env) (u : UserData)
    (h1 : u.is_premium.isSome) (h2 : u.premium_expires.isSome)
    (h3 : u.settings.isSome) (h4 : u.checklists.isSome) :
    ensure_user_exists env (some u) = u :=
  migrate_self env u h1 h2 h3 h4

/-- Witness for C8 on the default (freshly created, hence migrated) row. -/
theorem c8_migration_idempotent_witness :
    ensure_user_exists env0 (some defaultUser) = defaultUser :=
  c8_migration_idempotent env0 defaultUser rfl rfl rfl rfl

/-- C10: for a premium caller with at least two arguments, the task goes
to the checklist named by the first argument exactly when that checklist
exists, with the remaining arguments joined as its text; otherwise all
arguments joined go to Daily. In particular, when the first argument names
an existing checklist, the result is never the full joined text on Daily,
so such a multi-word task cannot be added to Daily. -/
theorem c10_add_routing (names : List String) (a0 a1 : String)
    (rest : List String) :
    route_add true names (a0 :: a1 :: rest) =
      (if a0 ∈ names then (a0, joinSpace (a1 :: rest))
       else ("Daily", joinSpace (a0 :: a1 :: rest))) ∧
    (a0 ∈ names →
      route_add true names (a0 :: a1 :: rest) ≠
        ("Daily", joinSpace (a0 :: a1 :: rest))) := by
  constructor
  · simp [route_add]
  · intro hmem heq
    rw [route_add] at heq
    simp only [if_pos hmem, if_pos rfl] at heq
    have h2 : joinSpace (a1 :: rest) = joinSpace (a0 :: a1 :: rest) :=
      congrArg Prod.snd heq
    have h3 := congrArg String.length h2
    rw [show joinSpace (a0 :: a1 :: rest) = a0 ++ " " ++ joinSpace (a1 :: rest)
      from rfl] at h3
    rw [String.length_append, String.length_append,
      show (" " : String).length = 1 from rfl] at h3
    omega

/-- Witness for C10 at a concrete premium routing. -/
theorem c10_add_routing_witness :
    ("Work" ∈ ["Work"]) ∧
    route_add true ["Work"] ["Work", "milk"] ≠
      ("Daily", joinSpace ["Work", "milk"]) :=
  ⟨by decide, (c10_add_routing ["Work"] "Work" "milk" []).2 (by decide)⟩

/-- Concrete premium user row with an expired entitlement and a recorded
plan tier, used to refute the plan-clearing part of C1. -/
def uExpired : UserData :=
  ⟨some true, some (some 50), some "standard",
   some [("Daily", ⟨"Daily", []⟩)], some defaultSettings, none, none⟩

/-- C1 counterexample: checking an expired premium user reverts the
entitlement and returns False, but the persisted row keeps its
premium_plan, refuting the claim that the plan tier is cleared. -/
theorem c1_counterexample_plan_kept :
    (is_user_premium env0 100 (some uExpired)).1 = false ∧
    (is_user_premium env0 100 (some uExpired)).2.premium_plan =
      some "standard" := by
  constructor <;> rfl

/-- C1 amended: a premium check on a user whose premium_expires lies in
the past observes and persists is_premium False and a null
premium_expires, leaves every other field (premium_plan included)
unchanged, and returns False; a second check on the reverted row changes
nothing and still returns False. -/
theorem c1_expired_check_reverts (env : Env) (now e : Nat) (u : UserData)
    (hp : u.is_premium = some true)
    (he : u.premium_expires = some (some e))
    (hs : u.settings.isSome) (hc : u.checklists.isSome)
    (hlt : e < now) :
    is_user_premium env now (some u) =
      (false,
       ⟨some false, some none, u.premium_plan, u.checklists, u.settings,
        u.legacy_tasks, u.legacy_done⟩) ∧
    is_user_premium env now (some (is_user_premium env now (some u)).2) =
      (false, (is_user_premium env now (some u)).2) := by
  have hm : migrate env u = u :=
    migrate_self env u (by simp [hp]) (by simp [he]) hs hc
  have h1 : is_user_premium env now (some u) =
      (false,
       ⟨some false, some none, u.premium_plan, u.checklists, u.settings,
        u.legacy_tasks, u.legacy_done⟩) := by
    simp [is_user_premium, ensure_user_exists, hm, hp, he, hlt]
  refine ⟨h1, ?_⟩
  rw [h1]
  have hm2 : migrate env
      (⟨some false, some none, u.premium_plan, u.checklists, u.settings,
        u.legacy_tasks, u.legacy_done⟩ : UserData) =
      ⟨some false, some none, u.premium_plan, u.checklists, u.settings,
        u.legacy_tasks, u.legacy_done⟩ :=
    migrate_self env _ rfl rfl hs hc
  simp [is_user_premium, ensure_user_exists, hm2]

/-- Witness for C1 amended on the concrete expired user. -/
theorem c1_expired_check_reverts_witness :
    uExpired.is_premium = some true ∧ (50 : Nat) < 100 ∧
    is_user_premium env0 100 (some uExpired) =
      (false,
       ⟨some false, some none, some "standard",
        some [("Daily", ⟨"Daily", []⟩)], some defaultSettings, none, none⟩) :=
  ⟨rfl, by decide,
   (c1_expired_check_reverts env0 100 50 uExpired rfl rfl rfl rfl
     (by decide)).1⟩

/-! Preservation of the Daily checklist by each operation (claim C5). -/

theorem hasDaily_premium_check (env : Env) (now : Nat) (u : UserData)
    (h : hasDaily u) : hasDaily ((is_user_premium env now (some u)).2) := by
  have hm := hasDaily_migrate env u h
  simp only [hasDaily] at hm ⊢
  rw [is_user_premium_checklists]
  exact hm

theorem hasDaily_add_task (env : Env) (premium : Bool) (args : List String)
    (u : UserData) (h : hasDaily u) : hasDaily (add_task env premium args u) := by
  have hm := hasDaily_migrate env u h
  simp only [add_task, ensure_user_exists]
  split
  · exact hm
  · split
    · exact hm
    · rename_i kvs hc
      have hk : "Daily" ∈ keys kvs := by
        simp only [hasDaily, hc, Option.getD_some] at hm
        exact hm
      split
      · exact hm
      · exact mem_keys_setKey kvs _ "Daily" _ hk

theorem hasDaily_new_checklist (env : Env) (premium : Bool)
    (nameArgs : List String) (u : UserData) (h : hasDaily u) :
    hasDaily (new_checklist env premium nameArgs u) := by
  have hm := hasDaily_migrate env u h
  simp only [new_checklist, ensure_user_exists]
  split
  · exact hm
  · split
    · exact hm
    · split
      · exact hm
      · rename_i kvs hc
        have hk : "Daily" ∈ keys kvs := by
          simp only [hasDaily, hc, Option.getD_some] at hm
          exact hm
        split
        · exact hm
        · split
          · exact hm
          · split
            · exact hm
            · exact mem_keys_setKey kvs _ "Daily" _ hk

theorem hasDaily_button_delete_confirmed (premium : Bool) (name : String)
    (u : UserData) (h : hasDaily u) :
    hasDaily (button_delete_confirmed premium name u) := by
  simp only [button_delete_confirmed]
  split
  · exact h
  · split
    · exact h
    · rename_i kvs hc
      have hk : "Daily" ∈ keys kvs := by
        have h2 := h
        simp only [hasDaily, hc, Option.getD_some] at h2
        exact h2
      split
      · rename_i hcond
        exact mem_keys_eraseKey kvs name "Daily" (fun hEq => hcond.2 hEq.symm) hk
      · exact h

theorem hasDaily_button_toggle (name task_id : String) (u : UserData)
    (h : hasDaily u) : hasDaily (button_toggle name task_id u) := by
  simp only [button_toggle]
  split
  · exact h
  · rename_i kvs hc
    have hk : "Daily" ∈ keys kvs := by
      have h2 := h
      simp only [hasDaily, hc, Option.getD_some] at h2
      exact h2
    split
    · exact h
    · split
      · exact mem_keys_setKey kvs name "Daily" _ hk
      · exact h

theorem hasDaily_button_delete_task (premium : Bool) (name task_id : String)
    (u : UserData) (h : hasDaily u) :
    hasDaily (button_delete_task premium name task_id u) := by
  simp only [button_delete_task]
  split
  · exact h
  · split
    · exact h
    · rename_i kvs hc
      have hk : "Daily" ∈ keys kvs := by
        have h2 := h
        simp only [hasDaily, hc, Option.getD_some] at h2
        exact h2
      split
      · exact h
      · split
        · exact mem_keys_setKey kvs name "Daily" _ hk
        · exact h

theorem hasDaily_button_toggle_notifications (premium : Bool) (u : UserData)
    (h : hasDaily u) : hasDaily (button_toggle_notifications premium u) := by
  simp only [button_toggle_notifications]
  by_cases hp : premium = false
  · rw [if_pos hp]; exact h
  · rw [if_neg hp]; exact h

theorem hasDaily_resetUser (u : UserData) (h : hasDaily u) :
    hasDaily (resetUserChecklists u) := by
  simp only [resetUserChecklists]
  split
  · exact h
  · rename_i kvs hc
    have hk : "Daily" ∈ keys kvs := by
      have h2 := h
      simp only [hasDaily, hc, Option.getD_some] at h2
      exact h2
    show "Daily" ∈ keys (kvs.map (fun p => (p.1, p.2.reset_all)))
    rw [keys_map_values kvs (fun p => p.2.reset_all)]
    exact hk

/-- C5: a Daily checklist is always present: creating a new user installs
it, migrating a user whose checklists container is missing rebuilds it,
and every modelled operation on a user row preserves it (in particular the
only checklist-deletion path refuses the name Daily). -/
theorem c5_daily_always_present :
    (∀ env, hasDaily (ensure_user_exists env none)) ∧
    (∀ env u, u.checklists = none → hasDaily (ensure_user_exists env (some u))) ∧
    (∀ env op u, hasDaily u → hasDaily (applyOp env op u)) := by
  refine ⟨?_, ?_, ?_⟩
  · intro env
    simp [ensure_user_exists, defaultUser, hasDaily, keys]
  · intro env u h
    exact hasDaily_migrate_none env u h
  · intro env op u h
    cases op with
    | ensureOp => exact hasDaily_migrate env u h
    | premiumCheck now => exact hasDaily_premium_check env now u h
    | addTaskCmd premium args => exact hasDaily_add_task env premium args u h
    | newChecklistCmd premium nameArgs =>
      exact hasDaily_new_checklist env premium nameArgs u h
    | deleteConfirmedCb premium name =>
      exact hasDaily_button_delete_confirmed premium name u h
    | toggleCb name task_id => exact hasDaily_button_toggle name task_id u h
    | deleteTaskCb premium name task_id =>
      exact hasDaily_button_delete_task premium name task_id u h
    | toggleNotificationsCb premium =>
      exact hasDaily_button_toggle_notifications premium u h
    | paymentOp nowTs durationDays => exact h
    | dailyResetOp => exact hasDaily_resetUser u h

/-- Concrete premium user with a deletable second checklist. -/
def uWork : UserData :=
  ⟨some true, some none, some "standard",
   some [("Daily", ⟨"Daily", []⟩), ("Work", ⟨"Work", []⟩)],
   some defaultSettings, none, none⟩

/-- Witness for C5: deleting the Work checklist keeps Daily present. -/
theorem c5_daily_always_present_witness :
    hasDaily (applyOp env0 (UserOp.deleteConfirmedCb true "Work") uWork) :=
  c5_daily_always_present.2.2 env0 (UserOp.deleteConfirmedCb true "Work")
    uWork (by decide)

/-! Claim C3: the daily reset. -/

/-- Whether an event is the whole-table save. -/
def isPersist : REvent → Bool
  | .persistAll => true
  | _ => false

/-- Declarative shape of the per-user part of the reset trace: each user
contributes their reset followed immediately by their notification
attempt (when enabled), before anything of the next user. -/
def userTrace (notifyOk : String → Bool) : Store → List REvent
  | [] => []
  | (id, u) :: rest =>
    REvent.resetUser id ::
      ((if notifEnabled u then [REvent.notifyAttempt id (notifyOk id)] else []) ++
       userTrace notifyOk rest)

theorem resetLoop_fst (notifyOk : String → Bool) (store : Store) :
    (resetLoop notifyOk store).1 =
      store.map (fun p => (p.1, resetUserChecklists p.2)) := by
  induction store with
  | nil => rfl
  | cons p rest ih =>
    rcases p with ⟨id, u⟩
    simp [resetLoop, ih]

theorem resetLoop_snd (notifyOk : String → Bool) (store : Store) :
    (resetLoop notifyOk store).2 = userTrace notifyOk store := by
  induction store with
  | nil => rfl
  | cons p rest ih =>
    rcases p with ⟨id, u⟩
    simp [resetLoop, userTrace, ih]

theorem userTrace_no_persist (notifyOk : String → Bool) (store : Store) :
    (userTrace notifyOk store).countP isPersist = 0 := by
  induction store with
  | nil => rfl
  | cons p rest ih =>
    rcases p with ⟨id, u⟩
    by_cases hn : notifEnabled u = true
    · simp [userTrace, hn, List.countP_cons, List.countP_append, isPersist, ih]
    · simp [userTrace, hn, List.countP_cons, List.countP_append, isPersist, ih]

/-- C3 amended: one firing of the daily reset resets every checklist of
every user in the table and saves the whole table exactly once, as the
final action; the notification of each user is attempted immediately after
the reset of that user, before the single save (not after it); and the outcome
of the notification attempts does not affect the resets of the remaining
users or the final save. -/
theorem c3_reset_behavior (store : Store) (notifyOk : String → Bool) :
    (reset_tasks store notifyOk).1 =
      store.map (fun p => (p.1, resetUserChecklists p.2)) ∧
    (reset_tasks store notifyOk).2 =
      userTrace notifyOk store ++ [REvent.persistAll] ∧
    (reset_tasks store notifyOk).2.countP isPersist = 1 ∧
    (reset_tasks store notifyOk).2.getLast? = some REvent.persistAll ∧
    (∀ g : String → Bool, (reset_tasks store notifyOk).1 = (reset_tasks store g).1) := by
  refine ⟨?_, ?_, ?_, ?_, ?_⟩
  · simp [reset_tasks, resetLoop_fst]
  · simp [reset_tasks, resetLoop_snd]
  · simp [reset_tasks, List.countP_append, userTrace_no_persist,
      resetLoop_snd, List.countP_cons, isPersist]
  · simp [reset_tasks, List.getLast?_concat]
  · intro g
    simp [reset_tasks, resetLoop_fst]

/-- Concrete user row for the C3 counterexample. -/
def uNotified : UserData :=
  ⟨some false, some none, none,
   some [("Daily", ⟨"Daily", [⟨"a", "x", "t0", true⟩]⟩)],
   some defaultSettings, none, none⟩

/-- C3 counterexample: with one user whose notifications are enabled, the
notification attempt occurs strictly before the whole-table save,
refuting the claimed order of persisting first and notifying afterwards. -/
theorem c3_counterexample_notify_before_persist :
    (reset_tasks [("1", uNotified)] (fun _ => true)).2 =
      [REvent.resetUser "1", REvent.notifyAttempt "1" true,
       REvent.persistAll] ∧
    List.indexOf (REvent.notifyAttempt "1" true)
        ((reset_tasks [("1", uNotified)] (fun _ => true)).2) <
      List.indexOf REvent.persistAll
        ((reset_tasks [("1", uNotified)] (fun _ => true)).2) := by
  constructor
  · rfl
  · decide

end Bot
